import Mathlib

/-!
Verification of the rabbitmq-monitor monitoring-session lifecycle.

Shallow embedding of two source files:
  * the RabbitMQFirehoseMonitor class (connect, startMonitoring,
    parseFirehoseMessage, the consume callback, stop);
  * the session coordinator in src/server/hono.ts (module-level flags
    connectedClients, isMonitoringStarted, manuallyStoppedMonitoring,
    disconnectTimeout, the socket handlers and the async
    startRabbitMQMonitoring / stopRabbitMQMonitoring functions).

Asynchronous functions are embedded as tasks with explicit program
counters; each await is a suspension point, and a scheduler action list
chooses which pending completion resolves next.  Ghost fields count the
channel.consume calls (upstream subscriptions), the monitor.stop calls,
the swallowed close errors, and record every status broadcast, so that
the claims about them are stated over observable counters.
-/

/-- State of a RabbitMQFirehoseMonitor instance: whether this.connection
and this.channel are non-null and the isMonitoring flag. -/
structure MonitorState where
  connected : Bool
  hasChannel : Bool
  isMonitoring : Bool
deriving Repr, DecidableEq

/-- The two errors thrown by the synchronous guard section of
startMonitoring: Must connect before starting monitoring, and Already
monitoring. -/
inductive StartMonitoringError
  | mustConnectFirst
  | alreadyMonitoring
deriving Repr, DecidableEq

/-- Result of running startMonitoring to completion in isolation: the
monitor state afterwards, how many assertQueue / bindQueue /
channel.consume operations were performed, and which error was thrown
if any.  On a throw the state is returned unchanged and no broker
operation has been performed, mirroring that both guards precede the
try block that performs them. -/
structure StartMonitoringOutcome where
  monitor : MonitorState
  queueDeclares : Nat
  queueBinds : Nat
  consumes : Nat
  threw : Option StartMonitoringError
deriving Repr, DecidableEq

/-- startMonitoring run atomically: guard on this.channel, then guard on
this.isMonitoring, then declare a queue, bind it to the trace exchange,
register the consumer and set isMonitoring. -/
def startMonitoring (m : MonitorState) : StartMonitoringOutcome :=
  if m.hasChannel = false then
    { monitor := m, queueDeclares := 0, queueBinds := 0, consumes := 0,
      threw := some StartMonitoringError.mustConnectFirst }
  else if m.isMonitoring = true then
    { monitor := m, queueDeclares := 0, queueBinds := 0, consumes := 0,
      threw := some StartMonitoringError.alreadyMonitoring }
  else
    { monitor := { m with isMonitoring := true },
      queueDeclares := 1, queueBinds := 1, consumes := 1, threw := none }

/-- Result of the stop method: the monitor state afterwards, how many
close errors were caught and logged, and whether process.exit(0) ran. -/
structure StopOutcome where
  monitor : MonitorState
  closeErrorsLogged : Nat
  processExited : Bool
deriving Repr, DecidableEq

/-- The stop method of RabbitMQFirehoseMonitor, run atomically.  The
source sets isMonitoring to false, closes the channel if present
(catching and logging any error) and nulls it, closes the connection if
present (catching and logging any error) and nulls it, and then
unconditionally calls process.exit(0).  The two booleans say whether
the respective close call rejects. -/
def monitorStop (m : MonitorState) (channelCloseFails connectionCloseFails : Bool) :
    StopOutcome :=
  let m1 : MonitorState := { m with isMonitoring := false }
  let chErr := if m1.hasChannel && channelCloseFails then 1 else 0
  let m2 : MonitorState := { m1 with hasChannel := false }
  let coErr := if m2.connected && connectionCloseFails then 1 else 0
  let m3 : MonitorState := { m2 with connected := false }
  { monitor := m3, closeErrorsLogged := chErr + coErr, processExited := true }

/-- The body of a normalized trace event: JSON.parse succeeded and gave a
structured value, or the fallback kept the raw text. -/
inductive BodyValue
  | structured (v : String)
  | rawText (s : String)
deriving Repr, DecidableEq

/-- A delivered broker message as the consume callback sees it: the
fields and properties parseFirehoseMessage reads. -/
structure AmqpMessage where
  routingKey : String
  exchange : String
  contentType : Option String
  messageId : Option String
  correlationId : Option String
  headers : Option (List (String × String))
  content : String
deriving Repr, DecidableEq

/-- The normalized FirehoseTraceMessage record.  The action field is the
first routing-key segment taken as-is (the source uses an unchecked type
cast, no validation), so it is a plain string here. -/
structure FirehoseTraceMessage where
  timestamp : String
  action : String
  target : String
  routingKey : String
  exchange : String
  contentType : Option String
  messageId : Option String
  correlationId : Option String
  headers : List (String × String)
  bodyLength : Nat
  body : BodyValue
deriving Repr, DecidableEq

/-- Split a character list at its first dot: the characters before it,
and, when a dot occurs, the characters after it. -/
def splitFirstDot : List Char → List Char × Option (List Char)
  | [] => ([], none)
  | c :: rest =>
    if c = '.' then ([], some rest)
    else
      let p := splitFirstDot rest
      (c :: p.1, p.2)

/-- The characters before the first dot. -/
def takeUntilDot : List Char → List Char
  | [] => []
  | c :: rest => if c = '.' then [] else c :: takeUntilDot rest

/-- parseFirehoseMessage.  The routing key is split on dots with limit 2
(JavaScript split keeps only the first two segments, so segment 0 is the
text before the first dot and segment 1 the text between the first and
second dots); action is segment 0 (an empty routing key gives the empty
segment, as in JavaScript); target is segment 1 with the fallback to the
string unknown (the source uses logical-or, so both a missing and an
empty second segment fall back); headers default to the empty map; the
body is JSON-parsed with a catch that keeps the raw text, so parsing is
total.  The current timestamp and the JSON decoder are injected. -/
def parseFirehoseMessage (tryParseJson : String → Option String) (now : String)
    (m : AmqpMessage) : FirehoseTraceMessage :=
  let firstSplit := splitFirstDot m.routingKey.toList
  let action := String.mk firstSplit.1
  let target :=
    match firstSplit.2 with
    | none => "unknown"
    | some rest =>
      let second := String.mk (takeUntilDot rest)
      if second = "" then "unknown" else second
  let body :=
    match tryParseJson m.content with
    | some v => BodyValue.structured v
    | none => BodyValue.rawText m.content
  { timestamp := now, action := action, target := target,
    routingKey := m.routingKey, exchange := m.exchange,
    contentType := m.contentType, messageId := m.messageId,
    correlationId := m.correlationId, headers := m.headers.getD [],
    bodyLength := m.content.length, body := body }

/-- Observable outcome of one run of the consume callback for one
delivered message: whether the onMessage dispatch returned normally,
whether the catch branch ran (console.error), and the acknowledgment
that was sent. -/
structure HandlerResult where
  dispatched : Bool
  errorHandled : Bool
  acked : Bool
  nacked : Bool
  nackRequeue : Bool
deriving Repr, DecidableEq

/-- The consume callback registered by startMonitoring: parse the
message, hand the result to onMessage, then ack if the channel is
present; any exception in that try block is caught, logged, and answered
with nack(message, false, false) if the channel is present.
parseFirehoseMessage is total (every fallible step inside it has an
internal fallback), so the only possible throw inside the try block is
the dispatch callback itself, modelled here as an Except. -/
def consumeHandler (hasChannel : Bool)
    (dispatch : FirehoseTraceMessage → Except String Unit)
    (tryParseJson : String → Option String) (now : String)
    (msg : AmqpMessage) : HandlerResult :=
  match dispatch (parseFirehoseMessage tryParseJson now msg) with
  | Except.ok _ =>
    { dispatched := true, errorHandled := false, acked := hasChannel,
      nacked := false, nackRequeue := false }
  | Except.error _ =>
    { dispatched := false, errorHandled := true, acked := false,
      nacked := hasChannel, nackRequeue := false }

/-- One delivery of a firehose-message payload to a viewer channel. -/
structure FirehoseDelivery where
  event : FirehoseTraceMessage
  id : String
  displayTime : String
deriving Repr, DecidableEq

/-- The fan-out in the onMessage closure of startRabbitMQMonitoring:
io.emit builds ONE payload object, spreading the event and adding
id (the event timestamp, a dash, and one random suffix drawn once per
publish) and displayTime, and sends that same payload to every
connected viewer.  The random suffix and the locale-formatted display
time are injected. -/
def broadcastFirehose (viewers : List String) (ev : FirehoseTraceMessage)
    (randomSuffix displayTime : String) : List (String × FirehoseDelivery) :=
  let payload : FirehoseDelivery :=
    { event := ev, id := ev.timestamp ++ "-" ++ randomSuffix,
      displayTime := displayTime }
  viewers.map fun v => (v, payload)

/-- Program counter of an in-flight startRabbitMQMonitoring task.
awaitConnect: suspended at await monitor.connect().  awaitSetup: the
guards of monitor.startMonitoring passed, suspended in the
assertQueue / bindQueue / prefetch awaits (none of which touch
coordinator-visible state).  awaitConsume: channel.consume has been
called, so the upstream subscription exists; awaiting its resolution,
after which isMonitoring and isMonitoringStarted are set. -/
inductive StartPc
  | awaitConnect
  | awaitSetup
  | awaitConsume
deriving Repr, DecidableEq

/-- The status and error broadcasts the coordinator emits. -/
inductive Broadcast
  | statusStarted
  | statusStopped
  | statusAlreadyActive
  | statusAlreadyStopped
  | monitoringError
deriving Repr, DecidableEq

/-- The module-level state of hono.ts plus the monitor instance, the
in-flight async tasks, and ghost observables.  subscribeCalls counts
channel.consume calls (upstream subscriptions issued); stopCalls counts
monitor.stop invocations; closeErrorsLogged counts close errors caught
and logged inside monitor.stop; broadcasts logs emitted statuses;
exited records that process.exit(0) ran, after which no handler runs. -/
structure CoordState where
  connectedClients : Nat
  isMonitoringStarted : Bool
  manuallyStopped : Bool
  timerArmed : Bool
  monitor : MonitorState
  startTasks : List StartPc
  stopTasks : Nat
  subscribeCalls : Nat
  stopCalls : Nat
  closeErrorsLogged : Nat
  broadcasts : List Broadcast
  exited : Bool
deriving Repr, DecidableEq

/-- Scheduler actions: the four socket events, the grace-timer callback
firing, and the resolution steps that advance an in-flight start task
(by index) or one in-flight stop task (with the value of whether its
close calls reject). -/
inductive Act
  | connectViewer
  | disconnectViewer
  | requestStart
  | requestStop
  | timerFire
  | stepStart (i : Nat)
  | stepStop (closeFails : Bool)
deriving Repr, DecidableEq

/-- Invoking startRabbitMQMonitoring: its synchronous prefix checks
isMonitoringStarted and returns if set; otherwise it calls
monitor.connect() and suspends, leaving a task at awaitConnect. -/
def spawnStart (s : CoordState) : CoordState :=
  if s.isMonitoringStarted then s
  else { s with startTasks := s.startTasks ++ [StartPc.awaitConnect] }

/-- Invoking stopRabbitMQMonitoring: its synchronous prefix checks
isMonitoringStarted and returns if clear; otherwise it calls
monitor.stop(), whose synchronous prefix sets isMonitoring to false
before the first close await suspends.  If neither a channel nor a
connection is present there is no await at all and stop runs straight
to process.exit(0). -/
def invokeStop (s : CoordState) : CoordState :=
  if s.isMonitoringStarted = false then s
  else
    let m : MonitorState := { s.monitor with isMonitoring := false }
    if m.hasChannel || m.connected then
      { s with monitor := m, stopCalls := s.stopCalls + 1,
               stopTasks := s.stopTasks + 1 }
    else
      { s with monitor := m, stopCalls := s.stopCalls + 1, exited := true }

/-- Advance in-flight start task i by resolving its pending await.
At awaitConnect the connection and channel are (re)established and
control re-enters monitor.startMonitoring, whose guards run now: if
isMonitoring is already true it throws, the catch in
startRabbitMQMonitoring broadcasts monitoring-error, and the task ends.
At awaitSetup the queue setup resolves and channel.consume is called:
the upstream subscription now exists.  At awaitConsume the consume call
resolves, isMonitoring is set, startMonitoring returns, and
startRabbitMQMonitoring sets isMonitoringStarted and broadcasts the
started status with no intervening await. -/
def stepStartTask (s : CoordState) (i : Nat) : CoordState :=
  match s.startTasks.get? i with
  | none => s
  | some pc =>
    match pc with
    | StartPc.awaitConnect =>
      let m : MonitorState := { s.monitor with connected := true, hasChannel := true }
      if m.isMonitoring then
        { s with monitor := m, startTasks := s.startTasks.eraseIdx i,
                 broadcasts := s.broadcasts ++ [Broadcast.monitoringError] }
      else
        { s with monitor := m, startTasks := s.startTasks.set i StartPc.awaitSetup }
    | StartPc.awaitSetup =>
      { s with subscribeCalls := s.subscribeCalls + 1,
               startTasks := s.startTasks.set i StartPc.awaitConsume }
    | StartPc.awaitConsume =>
      { s with monitor := { s.monitor with isMonitoring := true },
               isMonitoringStarted := true,
               broadcasts := s.broadcasts ++ [Broadcast.statusStarted],
               startTasks := s.startTasks.eraseIdx i }

/-- Resolve one in-flight monitor.stop task: the channel and connection
close awaits complete (a rejection is caught and logged), both handles
are nulled, and stop then reaches process.exit(0).  The statements after
await monitor.stop() in stopRabbitMQMonitoring (clearing
isMonitoringStarted and broadcasting the stopped status) never run. -/
def stepStopTask (s : CoordState) (closeFails : Bool) : CoordState :=
  if s.stopTasks = 0 then s
  else
    { s with monitor := { s.monitor with hasChannel := false, connected := false },
             closeErrorsLogged := s.closeErrorsLogged + (if closeFails then 1 else 0),
             stopTasks := s.stopTasks - 1,
             exited := true }

/-- One scheduler step.  After process.exit nothing runs.  connectViewer:
increment the client count, cancel any pending shutdown timer, and
auto-start unless already started or manually stopped (the per-socket
status unicasts carry no state and are omitted).  disconnectViewer:
decrement the count and arm the grace timer when the count reaches zero
while monitoring.  requestStart: clear the manual-stop flag, then start
or answer already-active.  requestStop: set the manual-stop flag, then
stop or answer already-stopped.  timerFire: a cancelled timer never
fires; the callback re-checks the guard, clears the manual-stop flag
and stops. -/
def step (s : CoordState) (a : Act) : CoordState :=
  if s.exited then s
  else
    match a with
    | Act.connectViewer =>
      let s1 := { s with connectedClients := s.connectedClients + 1,
                         timerArmed := false }
      if s1.isMonitoringStarted = false && s1.manuallyStopped = false then
        spawnStart s1
      else s1
    | Act.disconnectViewer =>
      let s1 := { s with connectedClients := s.connectedClients - 1 }
      if s1.connectedClients == 0 && s1.isMonitoringStarted then
        { s1 with timerArmed := true }
      else s1
    | Act.requestStart =>
      let s1 := { s with manuallyStopped := false }
      if s1.isMonitoringStarted = false then spawnStart s1
      else { s1 with broadcasts := s1.broadcasts ++ [Broadcast.statusAlreadyActive] }
    | Act.requestStop =>
      let s1 := { s with manuallyStopped := true }
      if s1.isMonitoringStarted then invokeStop s1
      else { s1 with broadcasts := s1.broadcasts ++ [Broadcast.statusAlreadyStopped] }
    | Act.timerFire =>
      if s.timerArmed = false then s
      else
        let s1 := { s with timerArmed := false }
        if s1.connectedClients == 0 && s1.isMonitoringStarted then
          invokeStop { s1 with manuallyStopped := false }
        else s1
    | Act.stepStart i => stepStartTask s i
    | Act.stepStop closeFails => stepStopTask s closeFails

/-- Run a list of scheduler actions from a state. -/
def run (s : CoordState) (acts : List Act) : CoordState :=
  acts.foldl step s

/-- The state at process start: no viewers, monitoring off, no manual
stop, no timer, a fresh monitor, no in-flight tasks. -/
def initState : CoordState :=
  { connectedClients := 0, isMonitoringStarted := false,
    manuallyStopped := false, timerArmed := false,
    monitor := { connected := false, hasChannel := false, isMonitoring := false },
    startTasks := [], stopTasks := 0, subscribeCalls := 0, stopCalls := 0,
    closeErrorsLogged := 0, broadcasts := [], exited := false }

/-- A concrete normalized event used by the fan-out counterexample. -/
def exampleEvent : FirehoseTraceMessage :=
  { timestamp := "2024-01-01T00:00:00.000Z", action := "publish",
    target := "my-exchange", routingKey := "publish.my-exchange",
    exchange := "orders", contentType := none, messageId := none,
    correlationId := none, headers := [], bodyLength := 2,
    body := BodyValue.rawText "hi" }

/-- A broker message with routing key publish.my-exchange. -/
def examplePublishMsg : AmqpMessage :=
  { routingKey := "publish.my-exchange", exchange := "amq.rabbitmq.trace",
    contentType := none, messageId := none, correlationId := none,
    headers := none, content := "hi" }

/-- A broker message with routing key deliver and no second segment. -/
def exampleDeliverMsg : AmqpMessage :=
  { routingKey := "deliver", exchange := "amq.rabbitmq.trace",
    contentType := none, messageId := none, correlationId := none,
    headers := none, content := "hi" }

/-- Interleaving for claim C1: a viewer connects while Idle (spawning a
start task), an explicit start request arrives while that start is still
awaiting monitor.connect() (spawning a second task, since
isMonitoringStarted is still false), and then each task resolves its
connect and setup awaits in turn. -/
def c1Run : List Act :=
  [Act.connectViewer, Act.requestStart,
   Act.stepStart 0, Act.stepStart 0,
   Act.stepStart 1, Act.stepStart 1]

/-- Events for claim C2: a completed start, then an explicit stop whose
channel close rejects. -/
def c2Run : List Act :=
  [Act.connectViewer, Act.stepStart 0, Act.stepStart 0, Act.stepStart 0,
   Act.requestStop, Act.stepStop true]

/-- Events for claim C4: Connect(A), start completes, Disconnect(A),
the grace timer fires, and the resulting stop resolves. -/
def c4Run : List Act :=
  [Act.connectViewer, Act.stepStart 0, Act.stepStart 0, Act.stepStart 0,
   Act.disconnectViewer, Act.timerFire, Act.stepStop false]

/-- Events for claim C6 up to the second viewer connecting: Connect(A),
start completes, ExplicitStop (stop in flight), Disconnect(A),
Connect(B). -/
def c6Run : List Act :=
  [Act.connectViewer, Act.stepStart 0, Act.stepStart 0, Act.stepStart 0,
   Act.requestStop, Act.disconnectViewer, Act.connectViewer]

/-- Events for claim C7: Connect(A), start completes, Disconnect(A),
Connect(B) before the grace timer fires. -/
def c7Run : List Act :=
  [Act.connectViewer, Act.stepStart 0, Act.stepStart 0, Act.stepStart 0,
   Act.disconnectViewer, Act.connectViewer]

/-- Claim C1: the code violates the no-duplicate-subscription property.
In the c1Run interleaving both start tasks pass the isMonitoringStarted
guard and the isMonitoring guard before either completes, so
channel.consume is called twice — two upstream subscriptions exist while
neither start attempt has yet resolved (isMonitoringStarted is still
false).  The claim says exactly one startSubscription call is issued
before the first start resolves. -/
theorem c1_double_subscription_run :
    (run initState c1Run).subscribeCalls = 2 ∧
    (run initState c1Run).isMonitoringStarted = false := by decide

/-- Claim C2: a stop whose channel close rejects has the error caught
and logged inside monitor.stop (closeErrorsLogged = 1, nothing
propagates), but the session state never advances to Idle: monitor.stop
ends in process.exit(0), so the line of stopRabbitMQMonitoring that
clears isMonitoringStarted never runs and no stopped status is
broadcast; the process terminates with isMonitoringStarted still
true.  The claim says the state still advances to Idle so that a later
start can run. -/
theorem c2_stop_failure_run :
    (run initState c2Run).closeErrorsLogged = 1 ∧
    (run initState c2Run).exited = true ∧
    (run initState c2Run).isMonitoringStarted = true ∧
    Broadcast.statusStopped ∉ (run initState c2Run).broadcasts := by decide

/-- Claim C3: calling stop on a monitor that was never started touches
no broker resource and logs nothing (the no-op half of the claim), but
it still reaches the unconditional process.exit(0), terminating the
process-wide event loop and transport, contrary to the claim that they
keep running after every stop invocation. -/
theorem c3_stop_exits_process :
    monitorStop { connected := false, hasChannel := false, isMonitoring := false }
        false false =
      { monitor := { connected := false, hasChannel := false, isMonitoring := false },
        closeErrorsLogged := 0, processExited := true } := rfl

/-- Claim C4: after Connect(A), Disconnect(A) and grace-period expiry,
exactly one monitor.stop call is issued and the manual-stop flag is
cleared (those two parts of the claim hold), but the final state is not
Idle and no stopped status is broadcast: process.exit(0) inside
monitor.stop terminates the process while isMonitoringStarted is still
true. -/
theorem c4_grace_expiry_run :
    (run initState c4Run).stopCalls = 1 ∧
    (run initState c4Run).manuallyStopped = false ∧
    (run initState c4Run).exited = true ∧
    (run initState c4Run).isMonitoringStarted = true ∧
    Broadcast.statusStopped ∉ (run initState c4Run).broadcasts := by decide

/-- Claim C5 counterexample: with viewers A and B connected, one publish
produces one delivery to each, but the two deliveries carry the SAME
generated id — io.emit builds a single payload whose id is drawn once
per publish — refuting the claim that each delivery carries a distinct
id. -/
theorem c5_shared_id_counterexample :
    (broadcastFirehose ["A", "B"] exampleEvent "k3j9q1x7z" "t0").length = 2 ∧
    ((broadcastFirehose ["A", "B"] exampleEvent "k3j9q1x7z" "t0").map
        fun d => d.2.id).getD 0 "" =
      ((broadcastFirehose ["A", "B"] exampleEvent "k3j9q1x7z" "t0").map
        fun d => d.2.id).getD 1 "" :=
  And.intro rfl rfl

/-- Claim C5 as amended: with viewers A and B connected, a single
publish results in exactly one firehose-message delivery to A and one
to B, with identical event fields, and the generated id is shared by
both deliveries (one id per publish, not one per delivery). -/
theorem c5_fanout_shared_payload (ev : FirehoseTraceMessage) (r t : String) :
    ((broadcastFirehose ["A", "B"] ev r t).filter fun d => d.1 == "A").length = 1 ∧
    ((broadcastFirehose ["A", "B"] ev r t).filter fun d => d.1 == "B").length = 1 ∧
    ((broadcastFirehose ["A", "B"] ev r t).map fun d => d.2.event) = [ev, ev] ∧
    ((broadcastFirehose ["A", "B"] ev r t).map fun d => d.2.id) =
      [ev.timestamp ++ "-" ++ r, ev.timestamp ++ "-" ++ r] := by
  refine And.intro rfl (And.intro rfl (And.intro rfl rfl))

/-- Claim C6: after the start completes and an explicit stop is
requested, Disconnect(A) then Connect(B) issues no new subscription
(subscribeCalls stays 1), but not because the session is Idle with
manualStop set as the claim states: isMonitoringStarted is still true
when B connects (the stop never clears it), and when the in-flight stop
resolves the process exits. -/
theorem c6_manual_stop_run :
    (run initState c6Run).subscribeCalls = 1 ∧
    (run initState c6Run).isMonitoringStarted = true ∧
    (run initState c6Run).manuallyStopped = true ∧
    (run initState (c6Run ++ [Act.stepStop false])).exited = true := by decide

/-- Claim C7: for Connect(A), start completion, Disconnect(A),
Connect(B) within the grace window, the armed shutdown timer is
cancelled by the reconnect, monitoring remains active at every step
after activation, no new start task is spawned, and monitor.stop is
never called. -/
theorem c7_reconnect_cancels_shutdown :
    (run initState (c7Run.take 4)).isMonitoringStarted = true ∧
    (run initState (c7Run.take 5)).isMonitoringStarted = true ∧
    (run initState (c7Run.take 5)).timerArmed = true ∧
    (run initState c7Run).isMonitoringStarted = true ∧
    (run initState c7Run).timerArmed = false ∧
    (run initState c7Run).stopCalls = 0 ∧
    (run initState c7Run).startTasks = [] ∧
    (run initState c7Run).subscribeCalls = 1 := by decide

/-- Claim C8: for every delivered broker message, with the channel
present, the consume callback produces exactly one of two outcomes:
the normalized event is dispatched and the message acked, or the thrown
error is handled and the message nacked without requeue — never both
and never neither, for every dispatch behavior and every message. -/
theorem c8_per_message_dispatch (dispatch : FirehoseTraceMessage → Except String Unit)
    (tryParseJson : String → Option String) (now : String) (msg : AmqpMessage) :
    consumeHandler true dispatch tryParseJson now msg =
        { dispatched := true, errorHandled := false, acked := true,
          nacked := false, nackRequeue := false } ∨
    consumeHandler true dispatch tryParseJson now msg =
        { dispatched := false, errorHandled := true, acked := false,
          nacked := true, nackRequeue := false } := by
  unfold consumeHandler
  cases dispatch (parseFirehoseMessage tryParseJson now msg) with
  | ok _ => exact Or.inl rfl
  | error _ => exact Or.inr rfl

/-- Claim C9: normalization derives action from the first routing-key
segment and target from the second, with the sentinel unknown when the
second segment is absent: publish.my-exchange gives action publish and
target my-exchange, and deliver alone gives action deliver and target
unknown. -/
theorem c9_target_extraction :
    (parseFirehoseMessage (fun _ => none) "T" examplePublishMsg).action = "publish" ∧
    (parseFirehoseMessage (fun _ => none) "T" examplePublishMsg).target = "my-exchange" ∧
    (parseFirehoseMessage (fun _ => none) "T" exampleDeliverMsg).action = "deliver" ∧
    (parseFirehoseMessage (fun _ => none) "T" exampleDeliverMsg).target = "unknown" := by
  refine And.intro rfl (And.intro rfl (And.intro rfl rfl))

/-- Claim C10: calling startMonitoring while a subscription is already
active (isMonitoring true, with the channel that an active subscription
entails) throws the Already monitoring error from the guard that runs
before the try block, so no queue is declared, nothing is bound, no
consumer is registered, and the monitor state is returned unchanged. -/
theorem c10_already_monitoring (m : MonitorState) (hmon : m.isMonitoring = true)
    (hch : m.hasChannel = true) :
    startMonitoring m =
      { monitor := m, queueDeclares := 0, queueBinds := 0, consumes := 0,
        threw := some StartMonitoringError.alreadyMonitoring } := by
  unfold startMonitoring
  rw [hch, hmon]
  simp

/-- Witness for claim C10 at the concrete monitor state that is
connected, has a channel and is monitoring. -/
theorem c10_already_monitoring_witness :
    startMonitoring { connected := true, hasChannel := true, isMonitoring := true } =
      { monitor := { connected := true, hasChannel := true, isMonitoring := true },
        queueDeclares := 0, queueBinds := 0, consumes := 0,
        threw := some StartMonitoringError.alreadyMonitoring } :=
  c10_already_monitoring
    { connected := true, hasChannel := true, isMonitoring := true } rfl rfl
